import Mathlib

set_option maxHeartbeats 1000000

/-!
Shallow embedding of the Doc-JAR clinical decision-support pipeline
(app/workflows/diagnosis_workflow.py, app/workflows/treatment_workflow.py,
app/services/json_db_service.py, app/main.py).

External collaborators (the vector index, the entity store and the
text-reasoning service) are modelled as oracle parameters; machine floats
are modelled as exact rationals, and Python dict/None semantics are made
explicit (insertion-ordered association lists, Option, truthiness).
-/

namespace DocJar

/-! ## Disease scorer (json_db_service.search_diseases_by_symptoms) -/

/-- Similarity score from a raw index distance: `score = 1.0 - distance`. -/
def similarity (distance : ℚ) : ℚ := 1 - distance

/-- One step of the per-disease score accumulation.  Mirrors the Python dict
update `disease_scores[disease_id] += score` (with `= 0` initialisation for a
fresh key): the first entry with the given key is incremented in place, and a
missing key is appended at the end, preserving insertion order. -/
def addScore : List (String × ℚ) → String → ℚ → List (String × ℚ)
  | [], i, s => [(i, s)]
  | (k, v) :: rest, i, s =>
    if k = i then (k, v + s) :: rest else (k, v) :: addScore rest i s

/-- The fold over the raw hits, threading the insertion-ordered score dict.
Each hit is a pair (disease id of the owning metadata, raw distance). -/
def aggAux (acc : List (String × ℚ)) : List (String × ℚ) → List (String × ℚ)
  | [] => acc
  | (i, d) :: rest => aggAux (addScore acc i (similarity d)) rest

/-- The aggregated per-disease scores, in key first-appearance order
(Python dict iteration order). -/
def aggregate (hits : List (String × ℚ)) : List (String × ℚ) :=
  aggAux [] hits

/-- Stable insertion into a descending-sorted list: the new element goes in
front of the first element whose score is not larger. -/
def insertDesc (x : String × ℚ) : List (String × ℚ) → List (String × ℚ)
  | [] => [x]
  | y :: l => if y.2 ≤ x.2 then x :: y :: l else y :: insertDesc x l

/-- Stable descending sort by score.  Models Python
`sorted(items, key=lambda item: item[1], reverse=True)`, which is a stable
sort (equal keys keep their original relative order). -/
def sortDesc : List (String × ℚ) → List (String × ℚ)
  | [] => []
  | x :: l => insertDesc x (sortDesc l)

/-- The scorer core: aggregate the raw hits per disease id and rank
descending by aggregate score. -/
def score_hits (hits : List (String × ℚ)) : List (String × ℚ) :=
  sortDesc (aggregate hits)

/-- search_diseases_by_symptoms.  The oracle `index` stands for the ChromaDB
query (none models a raised exception, which the code catches and turns into
an empty result).  An empty symptom list returns immediately, before any
index call. -/
def search_diseases_by_symptoms (symptoms : List String)
    (index : List String → Option (List (String × ℚ))) : List (String × ℚ) :=
  if symptoms.isEmpty then []
  else
    match index symptoms with
    | none => []
    | some hits => score_hits hits

/-! ## Confidence gate (diagnosis_workflow.run_diagnostic) -/

/-- The guarded gap test `top_score - disease_results[1][1] > thr`, which the
code only reaches when a second candidate exists. -/
def gapOk (top : ℚ) (rest : List (String × ℚ)) (thr : ℚ) : Bool :=
  match rest with
  | [] => false
  | (_, second) :: _ => decide (top - second > thr)

/-- The tier-1 test of the confidence gate taken on its own:
`top_score > 0.8 and (len(disease_results) == 1 or top - second > 0.2)`. -/
def tier1 (dr : List (String × ℚ)) : Bool :=
  match dr with
  | [] => false
  | (_, top) :: rest => decide (top > (0.8 : ℚ)) && (rest.isEmpty || gapOk top rest 0.2)

/-- The confidence decision of run_diagnostic, mirroring the Python
if/elif chain exactly: once `top_score > 0.8` holds, the later tiers are
never consulted. -/
def is_confident (dr : List (String × ℚ)) : Bool :=
  match dr with
  | [] => false
  | (_, top) :: rest =>
    if top > (0.8 : ℚ) then
      rest.isEmpty || gapOk top rest 0.2
    else if decide (top > (0.65 : ℚ)) && !rest.isEmpty && gapOk top rest 0.15 then
      true
    else if decide (top > (0.5 : ℚ)) && rest.isEmpty then
      true
    else
      false

/-- Outcome of run_diagnostic, as the status dictionaries of the Python code:
err carries the parse-failure message, confirmed carries diagnosis id,
display name and confidence score. -/
inductive DiagResult where
  | err (msg : String)
  | noMatch
  | needsData
  | confirmed (i : String) (name : String) (confidence : ℚ)
deriving DecidableEq, Repr

/-- Oracles consumed by run_diagnostic: `extracted` is the symptom list from
gemini_service.extract_entities (none models an error dict), `index` the
disease-collection query, `details` get_disease_details (none models the
empty dict returned on a read failure). -/
structure DiagInput where
  extracted : Option (List String)
  index : List String → Option (List (String × ℚ))
  details : String → Option String

/-- run_diagnostic: parse, search, gate, and on a confident top candidate
fetch its record (degrading to NO_MATCH if the record is unreadable). -/
def run_diagnostic (inp : DiagInput) : DiagResult :=
  match inp.extracted with
  | none => .err "Failed to parse input with AI."
  | some symptoms =>
    if symptoms.isEmpty then .noMatch
    else
      match search_diseases_by_symptoms symptoms inp.index with
      | [] => .noMatch
      | (top_id, top_score) :: rest =>
        if is_confident ((top_id, top_score) :: rest) then
          match inp.details top_id with
          | none => .noMatch
          | some dname => .confirmed top_id dname top_score
        else
          .needsData

/-! ## Medication safety search (treatment_workflow.get_treatment_plan) -/

/-- Result of one gemini_service.run_safety_check call, as the treatment
workflow reads it: errCall models a returned error dict, safeOk models
`is_safe` truthy, rejected models `is_safe` falsy with the optional
`conflict_reason` value (none when the key is absent). -/
inductive SafetyOutcome where
  | errCall
  | safeOk
  | rejected (reason : Option String)
deriving DecidableEq, Repr

/-- Python truthiness test used on `first_drug_conflict_reason`:
None and the empty string are falsy, every other string is truthy. -/
def strFalsy : Option String → Bool
  | none => true
  | some s => s.isEmpty

/-- Python f-string interpolation of an optional string: None prints as the
four-character text "None". -/
def pyStr : Option String → String
  | none => "None"
  | some s => s

/-- Whether a candidate id would be judged safe: its record fetch succeeds
and the safety verdict on the fetched record is safeOk. -/
def isSafeCandidate (fetch : String → Option String)
    (judge : String → SafetyOutcome) (m : String) : Bool :=
  match fetch m with
  | none => false
  | some d =>
    match judge d with
    | .safeOk => true
    | _ => false

/-- The safety loop of get_treatment_plan, threading the
`first_drug_conflict_reason` accumulator `acc`.  A medicine record is
modelled by its generic-name string; `fetch` models get_medicine_details
(none = empty dict) and `judge` models run_safety_check on the fetched
record.  Returns (safe_drug_json, first_drug_conflict_reason, the list of
candidates on which the safety judgment was actually invoked). -/
def safety_loop_aux (fetch : String → Option String)
    (judge : String → SafetyOutcome) (acc : Option String) :
    List String → Option String × Option String × List String
  | [] => (none, acc, [])
  | m :: rest =>
    match fetch m with
    | none => safety_loop_aux fetch judge acc rest
    | some d =>
      match judge d with
      | .errCall =>
        let r := safety_loop_aux fetch judge acc rest
        (r.1, r.2.1, m :: r.2.2)
      | .safeOk => (some d, acc, [m])
      | .rejected reason =>
        let acc2 := if strFalsy acc then some (reason.getD "Unknown conflict") else acc
        let r := safety_loop_aux fetch judge acc2 rest
        (r.1, r.2.1, m :: r.2.2)

/-- The safety loop started with no recorded conflict reason. -/
def safety_loop (fetch : String → Option String)
    (judge : String → SafetyOutcome) (meds : List String) :
    Option String × Option String × List String :=
  safety_loop_aux fetch judge none meds

/-- models.Prescription. -/
structure Prescription where
  medicine_name : String
  dosage : String
  frequency : String
  duration : String
deriving DecidableEq, Repr

/-- models.FinalDiagnosisReport (all optional fields default to None). -/
structure FinalDiagnosisReport where
  diagnosis : String
  confidence_score : ℚ
  follow_up_tests_required : Option (List String) := none
  prescription : Option Prescription := none
  contraindication_warning : Option String := none
  alternative_prescription : Option Prescription := none
  adverse_effect_warning : Option String := none
  lifestyle_and_diet : Option (List String) := none
  supportive_medicine : Option (List String) := none
  general_side_effect_note : Option String := none
  follow_up_instructions : Option String := none
deriving DecidableEq, Repr

/-- A successful gemini_service.get_full_treatment_plan payload as read by
the workflow: rx is the parse of plan_data['prescription']
(none models the exception branch of `Prescription(**...)`). -/
structure PlanData where
  rx : Option Prescription := none
  lifestyle_and_diet : Option (List String) := none
  supportive_medicine : Option (List String) := none
  follow_up_instructions : Option String := none
deriving DecidableEq, Repr

/-- The fixed Feature-6 note attached to the full report. -/
def generalNote : String :=
  "If you experience severe swelling, irritation, or nausea, stop taking all medication and consult a doctor immediately."

/-- get_treatment_plan.  `medicine_ids` is the result of
search_medicines_by_disease for the confirmed diagnosis id; `planCall`
models get_full_treatment_plan (none = a returned error dict). -/
def get_treatment_plan (diagnosis_name : String) (confidence : ℚ)
    (medicine_ids : List String) (fetch : String → Option String)
    (judge : String → SafetyOutcome) (planCall : Option PlanData) :
    FinalDiagnosisReport :=
  if medicine_ids.isEmpty then
    { diagnosis := diagnosis_name
      confidence_score := confidence
      contraindication_warning :=
        some ("No suitable medicine found in the local database for " ++ diagnosis_name ++ ".") }
  else
    match safety_loop fetch judge medicine_ids with
    | (none, firstReason, _) =>
      { diagnosis := diagnosis_name
        confidence_score := confidence
        contraindication_warning :=
          some ("All available treatments are contraindicated. Reason for first drug checked: "
            ++ pyStr firstReason) }
    | (some d, firstReason, _) =>
      match planCall with
      | none =>
        { diagnosis := diagnosis_name
          confidence_score := confidence
          prescription := some ⟨d, "N/A", "N/A", "N/A"⟩
          contraindication_warning := some "Failed to generate detailed plan." }
      | some plan =>
        let mainRx : Prescription :=
          plan.rx.getD ⟨d, "See doctor", "See doctor", "See doctor"⟩
        if strFalsy firstReason then
          { diagnosis := diagnosis_name
            confidence_score := confidence
            prescription := some mainRx
            lifestyle_and_diet := plan.lifestyle_and_diet
            supportive_medicine := plan.supportive_medicine
            general_side_effect_note := some generalNote
            follow_up_instructions := plan.follow_up_instructions }
        else
          { diagnosis := diagnosis_name
            confidence_score := confidence
            alternative_prescription := some mainRx
            contraindication_warning :=
              some ("Note: First-line drug was contraindicated (" ++ pyStr firstReason
                ++ "). Prescribing alternative.")
            lifestyle_and_diet := plan.lifestyle_and_diet
            supportive_medicine := plan.supportive_medicine
            general_side_effect_note := some generalNote
            follow_up_instructions := plan.follow_up_instructions }

/-! ## Medicine search (json_db_service.search_medicines_by_disease) -/

/-- search_medicines_by_disease.  `qres` is the medicine-collection query
outcome: none models a raised (and caught) exception, some gives the
medicine_id of each metadata hit in index order.  `enum` models the Python
conversion `list({... for ...})`: enumeration of a set in an unspecified,
content-determined order. -/
def search_medicines_by_disease (enum : List String → List String)
    (qres : Option (List String)) : List String :=
  match qres with
  | none => []
  | some metas => enum metas

/-- A concrete admissible set-enumeration order (sorted distinct elements),
used to instantiate the `enum` parameter in witnesses. -/
def mEnum (xs : List String) : List String :=
  xs.toFinset.sort (· ≤ ·)

/-! ## Endpoint orchestration (main.analyze_patient) -/

/-- Oracles consumed by the treatment stage: searchMeds keyed by the
confirmed diagnosis id, plus the safety-loop and plan-generation oracles. -/
structure TreatOracles where
  searchMeds : String → List String
  fetch : String → Option String
  judge : String → SafetyOutcome
  planCall : Option PlanData
  requiredTests : List String

/-- The POST /analyze handler: runs the diagnosis workflow, maps NEEDS_DATA
and NO_MATCH to their fixed report shapes, surfaces extraction failure as an
HTTP error, and otherwise runs the treatment workflow. -/
def analyze_patient (inp : DiagInput) (t : TreatOracles) :
    Except String FinalDiagnosisReport :=
  match run_diagnostic inp with
  | .needsData =>
    .ok { diagnosis := "Inconclusive"
          confidence_score := 0
          follow_up_tests_required := some t.requiredTests }
  | .noMatch =>
    .ok { diagnosis := "No match found"
          confidence_score := 0
          follow_up_tests_required :=
            some ["Symptoms do not match known conditions in the database. Please consult a doctor."] }
  | .err msg => .error msg
  | .confirmed i dname conf =>
    .ok (get_treatment_plan dname conf (t.searchMeds i) t.fetch t.judge t.planCall)

/-- Confidence score of a successful response, for stating endpoint-level
facts without destructuring. -/
def reportConfidence : Except String FinalDiagnosisReport → Option ℚ
  | .ok r => some r.confidence_score
  | .error _ => none

/-! ## Spec-side characterisations

Definitions in this section follow the words of the specification (section
4.1 Disease Scorer and 4.3 Medication Safety Search); they are compared
with the source-derived definitions above by the claim theorems. -/

/-- Keys in order of first appearance, duplicates dropped (the order in
which each disease id first appears among the hits). -/
def dedupFirst : List String → List String
  | [] => []
  | k :: rest => k :: (dedupFirst rest).filter (fun x => !(x == k))

/-- Sum of the similarity scores of all hits owning a given disease id. -/
def sumScores (hits : List (String × ℚ)) (i : String) : ℚ :=
  ((hits.filter (fun h => h.1 == i)).map (fun h => similarity h.2)).sum

/-- Spec-side aggregate candidate list: one entry per distinct hit id in
first-appearance order, carrying the summed similarity of its hits. -/
def aggSpec (hits : List (String × ℚ)) : List (String × ℚ) :=
  (dedupFirst (hits.map Prod.fst)).map (fun i => (i, sumScores hits i))

/-- Spec-side first rejection reason: the conflict reason of the first
candidate whose record fetch succeeds and whose safety verdict is an unsafe
judgment, with "Unknown conflict" substituted when that verdict carries no
reason; none when no candidate is rejected before the loop ends. -/
def firstReasonSpec (fetch : String → Option String)
    (judge : String → SafetyOutcome) : List String → Option String
  | [] => none
  | m :: rest =>
    match fetch m with
    | none => firstReasonSpec fetch judge rest
    | some d =>
      match judge d with
      | .errCall => firstReasonSpec fetch judge rest
      | .safeOk => none
      | .rejected reason => some (reason.getD "Unknown conflict")

/-- Whether a candidate's rejection, if any, carries a reason that is
non-empty after the "Unknown conflict" substitution.  Only a rejection whose
verdict holds an explicitly empty reason string fails this. -/
def rejectionReasonOk (fetch : String → Option String)
    (judge : String → SafetyOutcome) (m : String) : Bool :=
  match fetch m with
  | none => true
  | some d =>
    match judge d with
    | .rejected reason => !(reason.getD "Unknown conflict").isEmpty
    | _ => true

/-- Whether the second character list occurs contiguously at the head of the
first. -/
def leadMatch : List Char → List Char → Bool
  | [], _ => true
  | _ :: _, [] => false
  | a :: s, b :: t => a == b && leadMatch s t

/-- Whether `sub` occurs contiguously anywhere inside the list. -/
def hasSubstring (sub : List Char) : List Char → Bool
  | [] => sub.isEmpty
  | c :: t => leadMatch sub (c :: t) || hasSubstring sub t

/-! ## Concrete collaborator fixtures used to instantiate theorems -/

/-- Fixture: record fetch where only candidate B has a readable record. -/
def egFetch : String → Option String :=
  fun m => if m = "B" then some "Drug B" else none

/-- Fixture: safety judge accepting exactly the record of candidate B. -/
def egJudge : String → SafetyOutcome :=
  fun d => if d = "Drug B" then .safeOk else .errCall

/-- Fixture: a successful plan payload whose prescription parses. -/
def egPlan : PlanData :=
  ⟨some ⟨"Drug B", "500mg", "Twice a day", "For 7 days"⟩, none, none, none⟩

/-- Fixture: fetch failing on A, succeeding on B and C. -/
def egFetch2 : String → Option String :=
  fun m => if m = "A" then none else if m = "B" then some "bd"
    else if m = "C" then some "cd" else none

/-- Fixture: judge rejecting record bd with reason r1 and accepting cd. -/
def egJudge2 : String → SafetyOutcome :=
  fun d => if d = "bd" then .rejected (some "r1")
    else if d = "cd" then .safeOk else .errCall

/-- Fixture: fetch giving records ad and bd for candidates A and B. -/
def egFetch3 : String → Option String :=
  fun m => if m = "A" then some "ad" else if m = "B" then some "bd" else none

/-- Fixture: judge rejecting ad with reason r1 and bd with no reason. -/
def egJudge3 : String → SafetyOutcome :=
  fun d => if d = "ad" then .rejected (some "r1")
    else if d = "bd" then .rejected none else .errCall

/-- Fixture: a request whose two index hits both belong to disease D1 with
distance 0.1 each, so the aggregate score is 1.8. -/
def egDiagInput : DiagInput :=
  ⟨some ["fever"], fun _ => some [("D1", 0.1), ("D1", 0.1)], fun _ => some "Disease One"⟩

/-- Fixture: treatment-stage oracles with one safe medicine and a full plan. -/
def egOracles : TreatOracles :=
  ⟨fun _ => ["M1"], fun _ => some "DrugX", fun _ => .safeOk,
   some ⟨some ⟨"DrugX", "500mg", "Twice a day", "For 7 days"⟩, none, none, none⟩, []⟩

/-! ## Lemmas about the stable descending sort -/

theorem insertDesc_perm (x : String × ℚ) (l : List (String × ℚ)) :
    (insertDesc x l).Perm (x :: l) := by
  induction l with
  | nil => simp [insertDesc]
  | cons y t ih =>
    by_cases h : y.2 ≤ x.2
    · simp [insertDesc, h]
    · simp only [insertDesc, if_neg h]
      exact (ih.cons y).trans (List.Perm.swap x y t)

theorem sortDesc_perm (l : List (String × ℚ)) : (sortDesc l).Perm l := by
  induction l with
  | nil => exact List.Perm.refl []
  | cons x t ih => exact (insertDesc_perm x (sortDesc t)).trans (ih.cons x)

theorem insertDesc_pairwise (x : String × ℚ) (l : List (String × ℚ))
    (h : l.Pairwise (fun a b => b.2 ≤ a.2)) :
    (insertDesc x l).Pairwise (fun a b => b.2 ≤ a.2) := by
  induction l with
  | nil => simp [insertDesc]
  | cons y t ih =>
    rcases List.pairwise_cons.mp h with ⟨hy, ht⟩
    by_cases hc : y.2 ≤ x.2
    · simp only [insertDesc, if_pos hc]
      refine List.pairwise_cons.mpr ⟨?_, h⟩
      intro z hz
      rcases List.mem_cons.mp hz with rfl | hz
      · exact hc
      · exact le_trans (hy z hz) hc
    · simp only [insertDesc, if_neg hc]
      refine List.pairwise_cons.mpr ⟨?_, ih ht⟩
      intro z hz
      rcases List.mem_cons.mp ((insertDesc_perm x t).mem_iff.mp hz) with rfl | hz
      · exact le_of_lt (lt_of_not_le hc)
      · exact hy z hz

theorem sortDesc_sorted (l : List (String × ℚ)) :
    (sortDesc l).Pairwise (fun a b => b.2 ≤ a.2) := by
  induction l with
  | nil => simp [sortDesc]
  | cons x t ih => exact insertDesc_pairwise x (sortDesc t) ih

theorem filter_insertDesc (x : String × ℚ) (l : List (String × ℚ)) (q : ℚ) :
    (insertDesc x l).filter (fun p => decide (p.2 = q))
      = if x.2 = q then x :: l.filter (fun p => decide (p.2 = q))
        else l.filter (fun p => decide (p.2 = q)) := by
  induction l with
  | nil =>
    by_cases hx : x.2 = q <;> simp [insertDesc, List.filter_cons, hx]
  | cons y t ih =>
    by_cases hc : y.2 ≤ x.2
    · have hstep : insertDesc x (y :: t) = x :: y :: t := by
        simp [insertDesc, if_pos hc]
      by_cases hx : x.2 = q <;>
        simp [hstep, List.filter_cons, hx]
    · have hstep : insertDesc x (y :: t) = y :: insertDesc x t := by
        simp [insertDesc, if_neg hc]
      by_cases hx : x.2 = q
      · have hy : ¬(y.2 = q) := by
          intro h
          exact hc (le_of_eq (hx ▸ h))
        simp [hstep, List.filter_cons, hy, ih, hx]
      · by_cases hy : y.2 = q <;>
          simp [hstep, List.filter_cons, hy, ih, hx]

theorem sortDesc_filter (l : List (String × ℚ)) (q : ℚ) :
    (sortDesc l).filter (fun p => decide (p.2 = q))
      = l.filter (fun p => decide (p.2 = q)) := by
  induction l with
  | nil => rfl
  | cons x t ih =>
    by_cases hx : x.2 = q <;>
      simp [sortDesc, filter_insertDesc, hx, List.filter_cons, ih]

/-! ## The dict aggregation refines the spec-side candidate list -/

theorem mem_dedupFirst (l : List String) (x : String) :
    x ∈ dedupFirst l ↔ x ∈ l := by
  induction l with
  | nil => simp [dedupFirst]
  | cons k rest ih =>
    simp only [dedupFirst, List.mem_cons, List.mem_filter, ih]
    constructor
    · rintro (rfl | ⟨hx, _⟩)
      · exact Or.inl rfl
      · exact Or.inr hx
    · rintro (rfl | hx)
      · exact Or.inl rfl
      · by_cases hk : x = k
        · exact Or.inl hk
        · exact Or.inr ⟨hx, by simp [hk]⟩

theorem dedupFirst_nodup (l : List String) : (dedupFirst l).Nodup := by
  induction l with
  | nil => simp [dedupFirst]
  | cons k rest ih =>
    simp only [dedupFirst, List.nodup_cons]
    refine ⟨?_, ih.filter _⟩
    intro hk
    have := (List.mem_filter.mp hk).2
    simp at this

theorem dedupFirst_snoc (l : List String) (k : String) :
    dedupFirst (l ++ [k])
      = if k ∈ l then dedupFirst l else dedupFirst l ++ [k] := by
  induction l with
  | nil => simp [dedupFirst]
  | cons a l ih =>
    by_cases hkl : k ∈ l
    · simp [dedupFirst, ih, hkl]
    · by_cases hka : k = a
      · subst hka
        simp [dedupFirst, ih, hkl, List.filter_append]
      · simp [dedupFirst, ih, hkl, hka, List.filter_append]

theorem sumScores_snoc (hits : List (String × ℚ)) (k : String) (d : ℚ) (i : String) :
    sumScores (hits ++ [(k, d)]) i
      = sumScores hits i + (if k = i then similarity d else 0) := by
  simp only [sumScores, List.filter_append, List.map_append, List.sum_append]
  by_cases hk : k = i <;> simp [List.filter_cons, hk]

theorem sumScores_not_mem (hits : List (String × ℚ)) (i : String)
    (h : i ∉ hits.map Prod.fst) : sumScores hits i = 0 := by
  have hf : hits.filter (fun p => p.1 == i) = [] := by
    rw [List.filter_eq_nil_iff]
    intro a ha
    simp only [beq_iff_eq]
    intro he
    exact h (he ▸ List.mem_map_of_mem Prod.fst ha)
  simp [sumScores, hf]

theorem addScore_not_mem (acc : List (String × ℚ)) (i : String) (s : ℚ)
    (h : i ∉ acc.map Prod.fst) : addScore acc i s = acc ++ [(i, s)] := by
  induction acc with
  | nil => rfl
  | cons p rest ih =>
    simp only [List.map_cons, List.mem_cons] at h
    push_neg at h
    cases p with
    | mk k v =>
      simp only [addScore, if_neg (Ne.symm h.1)]
      rw [ih h.2]
      rfl

theorem addScore_map (g : String → ℚ) (ks : List String) (i : String) (s : ℚ)
    (hmem : i ∈ ks) (hnd : ks.Nodup) :
    addScore (ks.map fun k => (k, g k)) i s
      = ks.map fun k => (k, if k = i then g k + s else g k) := by
  induction ks with
  | nil => cases hmem
  | cons a ks ih =>
    rcases List.nodup_cons.mp hnd with ⟨ha, hnd'⟩
    by_cases hai : a = i
    · subst hai
      have hmap : List.map (fun k => ((k : String), g k)) ks
          = List.map (fun k => (k, if k = a then g k + s else g k)) ks := by
        apply List.map_congr_left
        intro k hk
        have hne : ¬(k = a) := fun he => ha (he ▸ hk)
        simp [hne]
      simp [addScore, ← hmap]
    · have hmem' : i ∈ ks := by
        rcases List.mem_cons.mp hmem with h | h
        · exact absurd h.symm hai
        · exact h
      simp only [List.map_cons, addScore, if_neg hai]
      rw [ih hmem' hnd']

theorem aggSpec_map_fst (hits : List (String × ℚ)) :
    (aggSpec hits).map Prod.fst = dedupFirst (hits.map Prod.fst) := by
  simp [aggSpec, List.map_map, Function.comp_def]

theorem aggSpec_snoc (hits : List (String × ℚ)) (k : String) (d : ℚ) :
    aggSpec (hits ++ [(k, d)]) = addScore (aggSpec hits) k (similarity d) := by
  by_cases hk : k ∈ hits.map Prod.fst
  · have hks : dedupFirst ((hits ++ [(k, d)]).map Prod.fst) = dedupFirst (hits.map Prod.fst) := by
      simp [List.map_append, dedupFirst_snoc, hk]
    simp only [aggSpec]
    rw [hks,
      addScore_map (fun i => sumScores hits i) _ k (similarity d)
        ((mem_dedupFirst _ _).mpr hk) (dedupFirst_nodup _)]
    apply List.map_congr_left
    intro i _
    rw [sumScores_snoc]
    by_cases hik : i = k
    · subst hik
      simp
    · simp [hik, Ne.symm hik]
  · have hks : dedupFirst ((hits ++ [(k, d)]).map Prod.fst)
        = dedupFirst (hits.map Prod.fst) ++ [k] := by
      simp [List.map_append, dedupFirst_snoc, hk]
    have hfst : k ∉ (aggSpec hits).map Prod.fst := by
      rw [aggSpec_map_fst]
      exact fun hc => hk ((mem_dedupFirst _ _).mp hc)
    rw [addScore_not_mem _ _ _ hfst]
    simp only [aggSpec]
    rw [hks, List.map_append]
    refine congrArg₂ _ ?_ ?_
    · apply List.map_congr_left
      intro i hi
      have hik : i ≠ k := fun he => hk ((mem_dedupFirst _ _).mp (he ▸ hi))
      rw [sumScores_snoc]
      simp [Ne.symm hik]
    · simp [sumScores_snoc, sumScores_not_mem hits k hk]

theorem aggAux_spec (rest : List (String × ℚ)) :
    ∀ processed : List (String × ℚ),
      aggAux (aggSpec processed) rest = aggSpec (processed ++ rest) := by
  induction rest with
  | nil => intro processed; simp [aggAux]
  | cons h t ih =>
    intro processed
    cases h with
    | mk i d =>
      have : addScore (aggSpec processed) i (similarity d)
          = aggSpec (processed ++ [(i, d)]) := (aggSpec_snoc processed i d).symm
      calc aggAux (aggSpec processed) ((i, d) :: t)
          = aggAux (aggSpec (processed ++ [(i, d)])) t := by rw [aggAux, this]
        _ = aggSpec ((processed ++ [(i, d)]) ++ t) := ih _
        _ = aggSpec (processed ++ (i, d) :: t) := by rw [List.append_assoc]; rfl

theorem aggregate_eq_aggSpec (hits : List (String × ℚ)) :
    aggregate hits = aggSpec hits := by
  have h0 : aggSpec [] = ([] : List (String × ℚ)) := rfl
  have := aggAux_spec hits []
  rw [h0] at this
  simpa [aggregate] using this

/-! ## Lemmas about the medication safety loop -/

theorem safety_aux_finds (fetch : String → Option String) (judge : String → SafetyOutcome)
    (c : String) (d : String) (l2 : List String)
    (hfc : fetch c = some d) (hsafe : judge d = .safeOk) :
    ∀ (l1 : List String) (acc : Option String),
      (∀ x ∈ l1, isSafeCandidate fetch judge x = false) →
      ∃ r, safety_loop_aux fetch judge acc (l1 ++ c :: l2)
        = (some d, r, l1.filter (fun x => (fetch x).isSome) ++ [c]) := by
  intro l1
  induction l1 with
  | nil =>
    intro acc _
    refine ⟨acc, ?_⟩
    simp [safety_loop_aux, hfc, hsafe]
  | cons m l1 ih =>
    intro acc hno
    have hm := hno m (List.mem_cons_self m l1)
    have hno' : ∀ x ∈ l1, isSafeCandidate fetch judge x = false :=
      fun x hx => hno x (List.mem_cons_of_mem m hx)
    cases hfm : fetch m with
    | none =>
      obtain ⟨r, hr⟩ := ih acc hno'
      exact ⟨r, by simp [safety_loop_aux, hfm, hr, List.filter_cons]⟩
    | some dm =>
      cases hjm : judge dm with
      | safeOk =>
        exfalso
        simp [isSafeCandidate, hfm, hjm] at hm
      | errCall =>
        obtain ⟨r, hr⟩ := ih acc hno'
        exact ⟨r, by simp [safety_loop_aux, hfm, hjm, hr, List.filter_cons]⟩
      | rejected reason =>
        obtain ⟨r, hr⟩ :=
          ih (if strFalsy acc then some (reason.getD "Unknown conflict") else acc) hno'
        exact ⟨r, by simp [safety_loop_aux, hfm, hjm, hr, List.filter_cons]⟩

theorem safety_aux_exhaust (fetch : String → Option String) (judge : String → SafetyOutcome) :
    ∀ (meds : List String) (acc : Option String),
      (∀ x ∈ meds, isSafeCandidate fetch judge x = false) →
      (∀ x ∈ meds, rejectionReasonOk fetch judge x = true) →
      (safety_loop_aux fetch judge acc meds).1 = none
      ∧ (safety_loop_aux fetch judge acc meds).2.1
          = if strFalsy acc then (firstReasonSpec fetch judge meds).or acc else acc := by
  intro meds
  induction meds with
  | nil =>
    intro acc _ _
    refine ⟨rfl, ?_⟩
    by_cases h : strFalsy acc <;> simp [safety_loop_aux, firstReasonSpec, h]
  | cons m rest ih =>
    intro acc hall hok
    have hm := hall m (List.mem_cons_self m rest)
    have hkm := hok m (List.mem_cons_self m rest)
    have hall' : ∀ x ∈ rest, isSafeCandidate fetch judge x = false :=
      fun x hx => hall x (List.mem_cons_of_mem m hx)
    have hok' : ∀ x ∈ rest, rejectionReasonOk fetch judge x = true :=
      fun x hx => hok x (List.mem_cons_of_mem m hx)
    cases hfm : fetch m with
    | none =>
      obtain ⟨h1, h2⟩ := ih acc hall' hok'
      constructor
      · simpa [safety_loop_aux, hfm] using h1
      · simpa [safety_loop_aux, firstReasonSpec, hfm] using h2
    | some dm =>
      cases hjm : judge dm with
      | safeOk =>
        exfalso
        simp [isSafeCandidate, hfm, hjm] at hm
      | errCall =>
        obtain ⟨h1, h2⟩ := ih acc hall' hok'
        constructor
        · simpa [safety_loop_aux, hfm, hjm] using h1
        · simpa [safety_loop_aux, firstReasonSpec, hfm, hjm] using h2
      | rejected reason =>
        have hre : (reason.getD "Unknown conflict").isEmpty = false := by
          simpa [rejectionReasonOk, hfm, hjm] using hkm
        by_cases hacc : strFalsy acc = true
        · obtain ⟨h1, h2⟩ := ih (some (reason.getD "Unknown conflict")) hall' hok'
          have hsf : strFalsy (some (reason.getD "Unknown conflict")) = false := by
            simp [strFalsy, hre]
          rw [hsf] at h2
          simp only [Bool.false_eq_true, if_false] at h2
          constructor
          · simpa [safety_loop_aux, hfm, hjm, hacc] using h1
          · simp [safety_loop_aux, hfm, hjm, hacc, firstReasonSpec, h2]
        · obtain ⟨h1, h2⟩ := ih acc hall' hok'
          constructor
          · simpa [safety_loop_aux, hfm, hjm, hacc] using h1
          · simp [safety_loop_aux, hfm, hjm, hacc, h2]

/-! ## Claim C1 -/

/-- C1 fails on the code: a descending candidate list with top 0.9 and
second 0.72 meets every condition of the claim (top > 0.65, two candidates,
gap 0.18 > 0.15) yet the gate does not confirm, because once
top_score > 0.8 holds the Python elif chain never consults tier 2, and the
tier-1 gap test (0.18 > 0.2) fails. -/
theorem C1_counterexample :
    List.Pairwise (fun a b => b.2 ≤ a.2) [("D1", (0.9 : ℚ)), ("D2", 0.72)]
    ∧ (0.9 : ℚ) > 0.65
    ∧ (0.9 : ℚ) - 0.72 > 0.15
    ∧ is_confident [("D1", (0.9 : ℚ)), ("D2", 0.72)] = false
    ∧ run_diagnostic
        ⟨some ["fever"], fun _ => some [("D1", 0.1), ("D2", 0.28)],
         fun _ => some "Disease One"⟩ = DiagResult.needsData := by
  refine ⟨by norm_num, by norm_num, by norm_num, ?_, ?_⟩
  · norm_num [is_confident, gapOk]
  · norm_num [run_diagnostic, search_diseases_by_symptoms, score_hits, aggregate,
      aggAux, addScore, similarity, sortDesc, insertDesc, is_confident, gapOk]

/-- C1 (amended): for every candidate list sorted descending by score whose
top score is strictly greater than 0.65 but at most 0.8, with at least two
candidates and a top-minus-second gap strictly greater than 0.15, the
confidence gate classifies the request as CONFIRMED.  When the top score
also exceeds 0.8, tier 1 alone decides and tier 2 is never consulted. -/
theorem C1_amended (i1 i2 : String) (s1 s2 : ℚ) (rest : List (String × ℚ))
    (_hsort : List.Pairwise (fun a b => b.2 ≤ a.2) ((i1, s1) :: (i2, s2) :: rest))
    (h08 : s1 ≤ 0.8) (h065 : s1 > 0.65) (hgap : s1 - s2 > 0.15) :
    is_confident ((i1, s1) :: (i2, s2) :: rest) = true := by
  simp only [is_confident, gapOk]
  rw [if_neg (not_lt.mpr h08)]
  simp [h065, hgap]

/-- C1 amended claim at a concrete input discharging its hypotheses. -/
theorem C1_amended_witness :
    is_confident [("D1", (0.8 : ℚ)), ("D2", 0.6)] = true :=
  C1_amended "D1" "D2" 0.8 0.6 [] (by norm_num) (by norm_num) (by norm_num) (by norm_num)

/-! ## Claim C8 -/

/-- C8: tier 1 of the confidence gate uses strict comparisons.  First
conjunct: a top score strictly above 0.8 with a sole candidate or a gap
strictly above 0.2 yields CONFIRMED.  Second conjunct: any list satisfying
the tier-1 test is confirmed.  Third conjunct: a top score of exactly 0.80
never satisfies tier 1.  Fourth conjunct: a gap of exactly 0.2 with two or
more candidates never satisfies tier 1. -/
theorem C8_tiers :
    (∀ (i : String) (top : ℚ) (rest : List (String × ℚ)),
        top > 0.8 → (rest = [] ∨ gapOk top rest 0.2 = true) →
        is_confident ((i, top) :: rest) = true)
    ∧ (∀ dr : List (String × ℚ), tier1 dr = true → is_confident dr = true)
    ∧ (∀ (i : String) (rest : List (String × ℚ)), tier1 ((i, (0.8 : ℚ)) :: rest) = false)
    ∧ (∀ (a b : String) (top second : ℚ) (rest : List (String × ℚ)),
        top - second = 0.2 → tier1 ((a, top) :: (b, second) :: rest) = false) := by
  refine ⟨?_, ?_, ?_, ?_⟩
  · intro i top rest h1 h2
    simp only [is_confident, if_pos h1]
    rcases h2 with rfl | hg
    · rfl
    · simp [hg]
  · intro dr h
    match dr with
    | [] => simp [tier1] at h
    | (i, top) :: rest =>
      simp only [tier1, Bool.and_eq_true, decide_eq_true_eq] at h
      simp only [is_confident, if_pos h.1]
      exact h.2
  · intro i rest
    simp only [tier1]
    have h8 : decide ((0.8 : ℚ) > 0.8) = false := by norm_num
    simp [h8]
  · intro a b top second rest
    intro h
    simp only [tier1, gapOk, h]
    have h2 : decide ((0.2 : ℚ) > 0.2) = false := by norm_num
    simp [h2]

/-- C8 conjuncts applied at concrete inputs discharging their hypotheses. -/
theorem C8_tiers_witness :
    is_confident [("D1", (0.81 : ℚ))] = true
    ∧ is_confident [("D1", (0.9 : ℚ)), ("D2", 0.6)] = true
    ∧ tier1 [("D1", (0.8 : ℚ))] = false
    ∧ tier1 [("D1", (1 : ℚ)), ("D2", 0.8)] = false :=
  ⟨C8_tiers.1 "D1" 0.81 [] (by norm_num) (Or.inl rfl),
   C8_tiers.2.1 [("D1", (0.9 : ℚ)), ("D2", 0.6)] (by norm_num [tier1, gapOk]),
   C8_tiers.2.2.1 "D1" [],
   C8_tiers.2.2.2 "D1" "D2" 1 0.8 [] (by norm_num)⟩

/-! ## Claim C9 -/

/-- C9: an empty extracted symptom set forces an immediate NO_MATCH, and
the scorer returns the empty list without consulting the index: the result
is the same for every index oracle, and search_diseases_by_symptoms on the
empty symptom list is empty for every index oracle. -/
theorem C9_empty_symptoms :
    (∀ (index1 index2 : List String → Option (List (String × ℚ)))
        (det : String → Option String),
        run_diagnostic ⟨some [], index1, det⟩ = DiagResult.noMatch
        ∧ run_diagnostic ⟨some [], index1, det⟩ = run_diagnostic ⟨some [], index2, det⟩)
    ∧ ∀ index, search_diseases_by_symptoms [] index = [] := by
  exact ⟨fun i1 i2 det => ⟨rfl, rfl⟩, fun index => rfl⟩

/-! ## Claim C5 -/

/-- C5: the safety search walks the candidate list strictly in order, skips
candidates whose fetch fails or whose judgment errors without aborting,
selects the first candidate judged safe, and invokes the safety judgment on
exactly the fetch-successful candidates before it plus that candidate
itself — on nothing after it. -/
theorem C5_first_match (fetch : String → Option String) (judge : String → SafetyOutcome)
    (l1 l2 : List String) (c d : String)
    (hfc : fetch c = some d) (hsafe : judge d = SafetyOutcome.safeOk)
    (hno : ∀ x ∈ l1, isSafeCandidate fetch judge x = false) :
    (safety_loop fetch judge (l1 ++ c :: l2)).1 = some d
    ∧ (safety_loop fetch judge (l1 ++ c :: l2)).2.2
        = l1.filter (fun x => (fetch x).isSome) ++ [c] := by
  obtain ⟨r, hr⟩ := safety_aux_finds fetch judge c d l2 hfc hsafe l1 none hno
  rw [safety_loop, hr]
  exact ⟨rfl, rfl⟩

/-- C5 applied to a concrete run: A is skipped (no record), B is rejected,
C is accepted, D is never evaluated. -/
theorem C5_first_match_witness :
    (safety_loop egFetch2 egJudge2 (["A", "B"] ++ "C" :: ["D"])).1 = some "cd"
    ∧ (safety_loop egFetch2 egJudge2 (["A", "B"] ++ "C" :: ["D"])).2.2
        = ["A", "B"].filter (fun x => (egFetch2 x).isSome) ++ ["C"] :=
  C5_first_match egFetch2 egJudge2 ["A", "B"] ["D"] "C" "cd"
    (by decide) (by decide) (by decide)

/-! ## Claim C6 -/

/-- C6 fails on the code: when the loop exhausts all candidates without a
safe drug and without any recorded rejection reason (here the single
candidate's fetch fails), the warning interpolates the Python value None as
the text "None"; no "Unknown conflict" placeholder appears anywhere in it. -/
theorem C6_counterexample :
    (get_treatment_plan "Flu" (0.9 : ℚ) ["A"] (fun _ => none)
        (fun _ => SafetyOutcome.errCall) none).contraindication_warning
      = some "All available treatments are contraindicated. Reason for first drug checked: None"
    ∧ (safety_loop (fun _ => none) (fun _ => SafetyOutcome.errCall) ["A"]).1 = none
    ∧ (safety_loop (fun _ => none) (fun _ => SafetyOutcome.errCall) ["A"]).2.1 = none
    ∧ hasSubstring "Unknown conflict".data
        "All available treatments are contraindicated. Reason for first drug checked: None".data
      = false := by
  refine ⟨?_, by decide, by decide, by decide⟩
  simp [get_treatment_plan, safety_loop, safety_loop_aux, pyStr]

/-- C6 (amended): a conflict reason is recorded only while the recorded
value is still falsy (absent or empty), so when every rejection carries a
non-empty reason the loop keeps the reason of the first rejected candidate,
with "Unknown conflict" substituted at recording time for a reasonless
unsafe verdict; on exhaustion the warning interpolates that first-recorded
reason, and interpolates the literal text "None" — not an "unknown
conflict" placeholder — when no candidate was rejected at all. -/
theorem C6_amended (dn : String) (conf : ℚ) (fetch : String → Option String)
    (judge : String → SafetyOutcome) (meds : List String) (plan : Option PlanData)
    (hne : meds ≠ [])
    (hall : ∀ x ∈ meds, isSafeCandidate fetch judge x = false)
    (hok : ∀ x ∈ meds, rejectionReasonOk fetch judge x = true) :
    (safety_loop fetch judge meds).2.1 = firstReasonSpec fetch judge meds
    ∧ (get_treatment_plan dn conf meds fetch judge plan).contraindication_warning
        = some ("All available treatments are contraindicated. Reason for first drug checked: "
            ++ pyStr (firstReasonSpec fetch judge meds)) := by
  obtain ⟨h1, h2⟩ := safety_aux_exhaust fetch judge meds none hall hok
  have hreason : (safety_loop fetch judge meds).2.1 = firstReasonSpec fetch judge meds := by
    rw [safety_loop, h2]
    simp [strFalsy]
  refine ⟨hreason, ?_⟩
  have hempty : meds.isEmpty = false := by
    cases meds with
    | nil => exact absurd rfl hne
    | cons a l => rfl
  rcases hsl : safety_loop fetch judge meds with ⟨s, r, ev⟩
  have hs : s = none := by
    have h1' := h1
    rw [show safety_loop_aux fetch judge none meds = safety_loop fetch judge meds from rfl,
      hsl] at h1'
    exact h1'
  have hr : r = firstReasonSpec fetch judge meds := by
    rw [hsl] at hreason
    exact hreason
  subst hs
  subst hr
  simp [get_treatment_plan, hempty, hsl]

/-- C6 amended claim at a concrete run: A rejected with reason r1, B
rejected with no reason, loop exhausts, warning carries r1. -/
theorem C6_amended_witness :
    (safety_loop egFetch3 egJudge3 ["A", "B"]).2.1
      = firstReasonSpec egFetch3 egJudge3 ["A", "B"]
    ∧ (get_treatment_plan "Flu" 1 ["A", "B"] egFetch3 egJudge3 none).contraindication_warning
        = some ("All available treatments are contraindicated. Reason for first drug checked: "
            ++ pyStr (firstReasonSpec egFetch3 egJudge3 ["A", "B"])) :=
  C6_amended "Flu" 1 egFetch3 egJudge3 ["A", "B"] none
    (by decide) (by decide) (by decide)

/-! ## Claim C2 -/

/-- C2 fails on the code: with candidates [A, B] where A's record fetch
fails (A is skipped, not rejected) and B is judged safe, the accepted drug
is not the first candidate tried, yet no rejection reason was recorded, so
the report carries the prescription as the primary prescription with no
warning and no alternative — contradicting the claim that any earlier
rejected-or-skipped candidate forces the alternative-plus-warning shape. -/
theorem C2_counterexample :
    (safety_loop egFetch egJudge ["A", "B"]).1 = some "Drug B"
    ∧ egFetch "A" = none
    ∧ (get_treatment_plan "Flu" (0.9 : ℚ) ["A", "B"] egFetch egJudge
          (some egPlan)).prescription
        = some ⟨"Drug B", "500mg", "Twice a day", "For 7 days"⟩
    ∧ (get_treatment_plan "Flu" (0.9 : ℚ) ["A", "B"] egFetch egJudge
          (some egPlan)).alternative_prescription = none
    ∧ (get_treatment_plan "Flu" (0.9 : ℚ) ["A", "B"] egFetch egJudge
          (some egPlan)).contraindication_warning = none := by
  refine ⟨by decide, by decide, ?_, ?_, ?_⟩ <;>
    simp [get_treatment_plan, safety_loop, safety_loop_aux, egFetch, egJudge, egPlan, strFalsy]

/-- C2 (amended): when a safe drug is selected and full-plan generation
succeeds, the report shape is decided by the recorded conflict reason: if a
truthy (non-empty) rejection reason was recorded from an earlier candidate
judged unsafe, the prescription goes to the alternative field with a
warning naming that reason and no primary prescription; if no truthy reason
was recorded (the first candidate tried was accepted, or earlier candidates
were merely skipped by fetch or judgment failures), the prescription is the
primary one with no warning. -/
theorem C2_amended (dn : String) (conf : ℚ) (meds : List String)
    (fetch : String → Option String) (judge : String → SafetyOutcome)
    (pd : PlanData) (d : String) (r : Option String) (ev : List String)
    (hsl : safety_loop fetch judge meds = (some d, r, ev)) :
    (strFalsy r = false →
        (get_treatment_plan dn conf meds fetch judge (some pd)).prescription = none
        ∧ (get_treatment_plan dn conf meds fetch judge (some pd)).alternative_prescription
            = some (pd.rx.getD ⟨d, "See doctor", "See doctor", "See doctor"⟩)
        ∧ (get_treatment_plan dn conf meds fetch judge (some pd)).contraindication_warning
            = some ("Note: First-line drug was contraindicated (" ++ pyStr r
                ++ "). Prescribing alternative."))
    ∧ (strFalsy r = true →
        (get_treatment_plan dn conf meds fetch judge (some pd)).prescription
            = some (pd.rx.getD ⟨d, "See doctor", "See doctor", "See doctor"⟩)
        ∧ (get_treatment_plan dn conf meds fetch judge (some pd)).alternative_prescription = none
        ∧ (get_treatment_plan dn conf meds fetch judge (some pd)).contraindication_warning
            = none) := by
  have hempty : meds.isEmpty = false := by
    cases meds with
    | nil => simp [safety_loop, safety_loop_aux] at hsl
    | cons a l => rfl
  constructor
  · intro hr
    refine ⟨?_, ?_, ?_⟩ <;> simp [get_treatment_plan, hempty, hsl, hr]
  · intro hr
    refine ⟨?_, ?_, ?_⟩ <;> simp [get_treatment_plan, hempty, hsl, hr]

/-- C2 amended claim at a concrete run: A skipped, B rejected with reason
r1, C accepted, so the prescription is reported as the alternative with a
warning naming r1. -/
theorem C2_amended_witness :
    (get_treatment_plan "Flu" 1 ["A", "B", "C"] egFetch2 egJudge2
        (some egPlan)).prescription = none
    ∧ (get_treatment_plan "Flu" 1 ["A", "B", "C"] egFetch2 egJudge2
          (some egPlan)).alternative_prescription
        = some (egPlan.rx.getD ⟨"cd", "See doctor", "See doctor", "See doctor"⟩)
    ∧ (get_treatment_plan "Flu" 1 ["A", "B", "C"] egFetch2 egJudge2
          (some egPlan)).contraindication_warning
        = some ("Note: First-line drug was contraindicated (" ++ pyStr (some "r1")
            ++ "). Prescribing alternative.") :=
  (C2_amended "Flu" 1 ["A", "B", "C"] egFetch2 egJudge2 egPlan "cd" (some "r1")
    ["B", "C"] (by decide)).1 (by decide)

/-! ## Claim C3 -/

/-- C3: for every request with a confirmed disease, a non-empty medicine
candidate list and a safe drug selected by the loop, the final report
satisfies exactly one of: primary prescription populated, or alternative
prescription and contraindication warning both populated — including the
fallback path where plan generation fails and a minimal prescription is
emitted from the safe drug's generic name. -/
theorem C3_exactly_one (inp : DiagInput) (t : TreatOracles) (i nm : String) (c : ℚ)
    (d : String) (r : Option String) (ev : List String)
    (hconf : run_diagnostic inp = DiagResult.confirmed i nm c)
    (hsl : safety_loop t.fetch t.judge (t.searchMeds i) = (some d, r, ev)) :
    analyze_patient inp t
      = Except.ok (get_treatment_plan nm c (t.searchMeds i) t.fetch t.judge t.planCall)
    ∧ (((get_treatment_plan nm c (t.searchMeds i) t.fetch t.judge t.planCall).prescription ≠ none
        ∧ ¬((get_treatment_plan nm c (t.searchMeds i) t.fetch t.judge
              t.planCall).alternative_prescription ≠ none
          ∧ (get_treatment_plan nm c (t.searchMeds i) t.fetch t.judge
              t.planCall).contraindication_warning ≠ none))
      ∨ ((get_treatment_plan nm c (t.searchMeds i) t.fetch t.judge t.planCall).prescription = none
        ∧ (get_treatment_plan nm c (t.searchMeds i) t.fetch t.judge
            t.planCall).alternative_prescription ≠ none
        ∧ (get_treatment_plan nm c (t.searchMeds i) t.fetch t.judge
            t.planCall).contraindication_warning ≠ none)) := by
  have hempty : (t.searchMeds i).isEmpty = false := by
    cases hm : t.searchMeds i with
    | nil => rw [hm] at hsl; simp [safety_loop, safety_loop_aux] at hsl
    | cons a l => rfl
  constructor
  · simp [analyze_patient, hconf]
  · cases hplan : t.planCall with
    | none =>
      left
      simp [get_treatment_plan, hempty, hsl, hplan]
    | some pd =>
      by_cases hr : strFalsy r = true
      · left
        simp [get_treatment_plan, hempty, hsl, hplan, hr]
      · right
        have hr' : strFalsy r = false := by
          cases h : strFalsy r
          · rfl
          · exact absurd h hr
        simp [get_treatment_plan, hempty, hsl, hplan, hr']

/-- C3 at a concrete run: the confirmed D1 request with a safe drug and a
successful plan yields a report with the primary side populated. -/
theorem C3_exactly_one_witness :
    analyze_patient egDiagInput egOracles
      = Except.ok (get_treatment_plan "Disease One" (9/5) (egOracles.searchMeds "D1")
          egOracles.fetch egOracles.judge egOracles.planCall)
    ∧ (((get_treatment_plan "Disease One" (9/5) (egOracles.searchMeds "D1") egOracles.fetch
          egOracles.judge egOracles.planCall).prescription ≠ none
        ∧ ¬((get_treatment_plan "Disease One" (9/5) (egOracles.searchMeds "D1") egOracles.fetch
              egOracles.judge egOracles.planCall).alternative_prescription ≠ none
          ∧ (get_treatment_plan "Disease One" (9/5) (egOracles.searchMeds "D1") egOracles.fetch
              egOracles.judge egOracles.planCall).contraindication_warning ≠ none))
      ∨ ((get_treatment_plan "Disease One" (9/5) (egOracles.searchMeds "D1") egOracles.fetch
            egOracles.judge egOracles.planCall).prescription = none
        ∧ (get_treatment_plan "Disease One" (9/5) (egOracles.searchMeds "D1") egOracles.fetch
            egOracles.judge egOracles.planCall).alternative_prescription ≠ none
        ∧ (get_treatment_plan "Disease One" (9/5) (egOracles.searchMeds "D1") egOracles.fetch
            egOracles.judge egOracles.planCall).contraindication_warning ≠ none)) :=
  C3_exactly_one egDiagInput egOracles "D1" "Disease One" (9/5) "DrugX" none ["M1"]
    (by norm_num [run_diagnostic, search_diseases_by_symptoms, score_hits, aggregate,
      aggAux, addScore, similarity, sortDesc, insertDesc, is_confident, gapOk, egDiagInput])
    (by decide)

/-! ## Claim C4 -/

/-- C4 fails on the code: the pipeline can emit a report whose
confidence_score is 9/5, because the confirmed confidence is the top
aggregate score — a sum of per-hit similarities (here 0.9 + 0.9) — and it
is never clamped to [0, 1]. -/
theorem C4_counterexample :
    reportConfidence (analyze_patient egDiagInput egOracles) = some (9/5)
    ∧ ¬((9/5 : ℚ) ≤ 1) := by
  constructor
  · norm_num [reportConfidence, analyze_patient, run_diagnostic,
      search_diseases_by_symptoms, score_hits, aggregate, aggAux, addScore, similarity,
      sortDesc, insertDesc, is_confident, gapOk, get_treatment_plan, safety_loop,
      safety_loop_aux, strFalsy, egDiagInput, egOracles]
  · norm_num

/-- C4 (amended): the confidence_score of every treatment report equals the
confidence handed in from the diagnosis stage unchanged, and a confirmed
request's report is exactly the treatment plan built from the confirmed
confidence — the top candidate's aggregate similarity sum, which is not
constrained to [0, 1]. -/
theorem C4_amended (dn : String) (conf : ℚ) (meds : List String)
    (fetch : String → Option String) (judge : String → SafetyOutcome)
    (plan : Option PlanData) (inp : DiagInput) (t : TreatOracles)
    (i nm : String) (c : ℚ)
    (hconf : run_diagnostic inp = DiagResult.confirmed i nm c) :
    (get_treatment_plan dn conf meds fetch judge plan).confidence_score = conf
    ∧ analyze_patient inp t
        = Except.ok (get_treatment_plan nm c (t.searchMeds i) t.fetch t.judge t.planCall) := by
  constructor
  · unfold get_treatment_plan
    split
    · rfl
    · split
      · rfl
      · split
        · rfl
        · split
          · rfl
          · rfl
  · simp [analyze_patient, hconf]

/-- C4 amended claim at concrete inputs: the report built from the
confirmed D1 request carries confidence 9/5 unchanged. -/
theorem C4_amended_witness :
    (get_treatment_plan "Flu" (9/5 : ℚ) [] (fun _ => none)
        (fun _ => SafetyOutcome.errCall) none).confidence_score = 9/5
    ∧ analyze_patient egDiagInput egOracles
        = Except.ok (get_treatment_plan "Disease One" (9/5) (egOracles.searchMeds "D1")
            egOracles.fetch egOracles.judge egOracles.planCall) :=
  C4_amended "Flu" (9/5) [] (fun _ => none) (fun _ => SafetyOutcome.errCall) none
    egDiagInput egOracles "D1" "Disease One" (9/5)
    (by norm_num [run_diagnostic, search_diseases_by_symptoms, score_hits, aggregate,
      aggAux, addScore, similarity, sortDesc, insertDesc, is_confident, gapOk, egDiagInput])

/-! ## Claim C7 -/

/-- C7: for every similarity-search result of at most five hits, the scorer
is exactly the spec-side candidate list: the dict aggregation equals one
entry per distinct disease id in first-appearance order carrying the sum of
the similarities (1 - distance) of its hits; the returned list is a
permutation of that list, is sorted descending by aggregate score, and for
every score value the sub-sequence of entries carrying that score is kept
in first-appearance order (stable tie-breaking). -/
theorem C7_scorer (hits : List (String × ℚ)) (_h5 : hits.length ≤ 5) :
    aggregate hits = aggSpec hits
    ∧ (score_hits hits).Perm (aggSpec hits)
    ∧ (score_hits hits).Pairwise (fun a b => b.2 ≤ a.2)
    ∧ ∀ q : ℚ, (score_hits hits).filter (fun p => decide (p.2 = q))
        = (aggSpec hits).filter (fun p => decide (p.2 = q)) := by
  refine ⟨aggregate_eq_aggSpec hits, ?_, ?_, ?_⟩
  · rw [score_hits, aggregate_eq_aggSpec]
    exact sortDesc_perm _
  · exact sortDesc_sorted _
  · intro q
    rw [score_hits, aggregate_eq_aggSpec]
    exact sortDesc_filter _ q

/-- C7 at a concrete three-hit result with a repeated disease id. -/
theorem C7_scorer_witness :
    aggregate [("D1", (0.1 : ℚ)), ("D2", 0.7), ("D1", 0.1)]
      = aggSpec [("D1", (0.1 : ℚ)), ("D2", 0.7), ("D1", 0.1)]
    ∧ (score_hits [("D1", (0.1 : ℚ)), ("D2", 0.7), ("D1", 0.1)]).Perm
        (aggSpec [("D1", (0.1 : ℚ)), ("D2", 0.7), ("D1", 0.1)])
    ∧ (score_hits [("D1", (0.1 : ℚ)), ("D2", 0.7), ("D1", 0.1)]).Pairwise
        (fun a b => b.2 ≤ a.2)
    ∧ (score_hits [("D1", (0.1 : ℚ)), ("D2", 0.7), ("D1", 0.1)]).filter
          (fun p => decide (p.2 = 9/5))
        = (aggSpec [("D1", (0.1 : ℚ)), ("D2", 0.7), ("D1", 0.1)]).filter
            (fun p => decide (p.2 = 9/5)) := by
  have h := C7_scorer [("D1", (0.1 : ℚ)), ("D2", 0.7), ("D1", 0.1)] (by norm_num)
  exact ⟨h.1, h.2.1, h.2.2.1, h.2.2.2 (9/5)⟩

/-! ## Claim C10 -/

/-- C10: for every index query outcome, search_medicines_by_disease returns
a duplicate-free list of exactly the medicine ids of the metadata hits, the
empty list when the query raises, and its order comes from the set
enumeration alone: permuting (or duplicating) the index result leaves the
output unchanged, so the index's result order is not the output order. -/
theorem C10_medicine_search (enum : List String → List String)
    (hmem : ∀ xs a, a ∈ enum xs ↔ a ∈ xs)
    (hnd : ∀ xs, (enum xs).Nodup)
    (hext : ∀ xs ys, (∀ a, a ∈ xs ↔ a ∈ ys) → enum xs = enum ys) :
    search_medicines_by_disease enum none = []
    ∧ (∀ metas, (search_medicines_by_disease enum (some metas)).Nodup)
    ∧ (∀ metas a, a ∈ search_medicines_by_disease enum (some metas) ↔ a ∈ metas)
    ∧ (∀ metas metas2, metas.Perm metas2 →
        search_medicines_by_disease enum (some metas)
          = search_medicines_by_disease enum (some metas2)) := by
  refine ⟨rfl, fun metas => hnd metas, fun metas a => hmem metas a, ?_⟩
  intro metas metas2 hperm
  exact hext metas metas2 (fun a => hperm.mem_iff)

/-- C10 instantiated with a concrete admissible set enumeration (sorted
distinct elements) on a concrete duplicated query result. -/
theorem C10_medicine_search_witness :
    search_medicines_by_disease mEnum none = []
    ∧ (search_medicines_by_disease mEnum (some ["b", "a", "b"])).Nodup
    ∧ ("a" ∈ search_medicines_by_disease mEnum (some ["b", "a", "b"])
        ↔ "a" ∈ (["b", "a", "b"] : List String))
    ∧ search_medicines_by_disease mEnum (some ["b", "a", "b"])
        = search_medicines_by_disease mEnum (some ["a", "b", "b"]) := by
  have hmem : ∀ xs a, a ∈ mEnum xs ↔ a ∈ xs := by
    intro xs a
    simp [mEnum, Finset.mem_sort, List.mem_toFinset]
  have hnd : ∀ xs, (mEnum xs).Nodup := fun xs => Finset.sort_nodup _ _
  have hext : ∀ xs ys, (∀ a, a ∈ xs ↔ a ∈ ys) → mEnum xs = mEnum ys := by
    intro xs ys h
    have hts : xs.toFinset = ys.toFinset := by
      apply Finset.ext
      intro a
      simpa [List.mem_toFinset] using h a
    simp [mEnum, hts]
  have h := C10_medicine_search mEnum hmem hnd hext
  exact ⟨h.1, h.2.1 _, h.2.2.1 _ "a", h.2.2.2 _ _ (by decide)⟩

end DocJar
